import Mathlib

/-!
# Verification of the chicken-POS order lifecycle engine

Shallow embedding of the order lifecycle and notification core of the
chicken-POS repository: the order state machine
(`OrderService.validateStatusTransition` in `src/services/linePayService.ts`),
the pricing and validation engine (`validateOrderItems`, `validateCoupon`,
`calculateDiscount`), the order number allocator (`generateOrderNumber`),
the preparation-time heuristic (`calculateEstimatedTime`), the completion
side-effect processor (`updateMemberPoints`, `updateCustomerSpending`,
`calculateLoyaltyTier`), the socket room-join authorization
(`socketService.ts`), the batch status endpoint (`routes/orders.ts`) and the
POS order creation endpoint (`routes/pos.ts`).

Monetary amounts are modelled as rationals (the source uses JS numbers via
`parseFloat` on Prisma decimals), timestamps as integers (milliseconds),
database lookups as `List.find?` over an explicit list standing for the
table, and thrown `AppError`s as `Except String` with the source's literal
message strings.
-/

/-! ## Order state machine (`OrderService.validateStatusTransition`) -/

/-- Embedding of the `validTransitions` record in
`OrderService.validateStatusTransition`: the allowed-next list for each
status key, `none` for a status not in the record. -/
def validTransitions (currentStatus : String) : Option (List String) :=
  if currentStatus = "PENDING" then some ["CONFIRMED", "CANCELLED"]
  else if currentStatus = "CONFIRMED" then some ["PREPARING", "CANCELLED"]
  else if currentStatus = "PREPARING" then some ["READY", "CANCELLED"]
  else if currentStatus = "READY" then some ["COMPLETED"]
  else if currentStatus = "COMPLETED" then some []
  else if currentStatus = "CANCELLED" then some []
  else none

/-- `OrderService.validateStatusTransition(currentStatus, newStatus)`:
`validTransitions[currentStatus]?.includes(newStatus) || false`. -/
def validateStatusTransition (currentStatus newStatus : String) : Bool :=
  match validTransitions currentStatus with
  | some allowed => allowed.contains newStatus
  | none => false

/-- The transition table as a set of (from, to) pairs, as listed in the
spec's states table. -/
def allowedPairs : List (String × String) :=
  [("PENDING", "CONFIRMED"), ("PENDING", "CANCELLED"),
   ("CONFIRMED", "PREPARING"), ("CONFIRMED", "CANCELLED"),
   ("PREPARING", "READY"), ("PREPARING", "CANCELLED"),
   ("READY", "COMPLETED")]

/-! ## Coupons (`OrderService.validateCoupon`, `OrderService.calculateDiscount`) -/

/-- The coupon `type` enum of the Prisma schema, as switched on in
`calculateDiscount`. -/
inductive CouponType where
  | PERCENTAGE
  | FIXED_AMOUNT
  | FREE_SHIPPING
deriving DecidableEq, Repr

/-- A row of the `coupon` table, with the fields read by `validateCoupon`
and `calculateDiscount`.  Nullable columns are `Option`; `value`,
`maxDiscount` and `minOrderAmount` are Prisma decimals read through
`parseFloat`, modelled as rationals; the validity window bounds are
timestamps in milliseconds. -/
structure Coupon where
  code : String
  storeId : String
  isActive : Bool
  validFrom : Int
  validUntil : Int
  type : CouponType
  value : Rat
  maxDiscount : Option Rat
  usageLimit : Option Nat
  usedCount : Nat
  minOrderAmount : Option Rat
deriving DecidableEq, Repr

/-- `OrderService.calculateDiscount(coupon, orderAmount)`: the switch on
`coupon.type`, the cap at `coupon.maxDiscount` when that column is non-null
(a Prisma decimal object is truthy even at zero), and the final
`Math.min(discount, orderAmount)`. -/
def calculateDiscount (coupon : Coupon) (orderAmount : Rat) : Rat :=
  let discount : Rat :=
    match coupon.type with
    | .PERCENTAGE => orderAmount * (coupon.value / 100)
    | .FIXED_AMOUNT => coupon.value
    | .FREE_SHIPPING => 0
  let capped : Rat :=
    match coupon.maxDiscount with
    | some m => if discount > m then m else discount
    | none => discount
  min capped orderAmount

/-- The `where` clause of the `prisma.coupon.findFirst` call in
`validateCoupon`: matching code and store, active, and the validity window
containing `now`. -/
def couponQueryMatch (couponCode storeId : String) (now : Int) (c : Coupon) : Bool :=
  c.code == couponCode && c.storeId == storeId && c.isActive
    && decide (c.validFrom ≤ now) && decide (now ≤ c.validUntil)

/-- The guard `coupon.usageLimit && coupon.usedCount >= coupon.usageLimit`:
a null or zero `usageLimit` (an `Int?` column, so `0` is falsy in JS) skips
the check. -/
def usageLimitReached (c : Coupon) : Bool :=
  match c.usageLimit with
  | some l => decide (l ≠ 0) && decide (c.usedCount ≥ l)
  | none => false

/-- `OrderService.validateCoupon(couponCode, storeId, orderAmount)` over an
explicit coupon table and clock.  Thrown `AppError`s become `Except.error`
with the source's message strings. -/
def validateCoupon (coupons : List Coupon) (couponCode storeId : String)
    (now : Int) (orderAmount : Rat) : Except String Coupon :=
  match coupons.find? (couponQueryMatch couponCode storeId now) with
  | none => .error "優惠券不存在或已過期"
  | some coupon =>
    if usageLimitReached coupon then
      .error "優惠券使用次數已達上限"
    else
      match coupon.minOrderAmount with
      | some m =>
        if orderAmount < m then
          .error ("最低消費金額為 " ++ toString m)
        else
          .ok coupon
      | none => .ok coupon

/-! ## Catalog and order item validation (`OrderService.validateOrderItems`) -/

/-- A product variant row (`product.variants`), price read via `parseFloat`. -/
structure CatalogVariant where
  id : String
  price : Rat
deriving DecidableEq, Repr

/-- A product add-on row (`product.addons`) with its quantity cap. -/
structure CatalogAddon where
  id : String
  name : String
  price : Rat
  maxQuantity : Nat
deriving DecidableEq, Repr

/-- The `product.inventory` relation; `none` when the product has no
inventory row. -/
structure Inventory where
  quantity : Nat
deriving DecidableEq, Repr

/-- A row of the `product` table with the relations included by
`validateOrderItems`. -/
structure Product where
  id : String
  storeId : String
  name : String
  basePrice : Rat
  isAvailable : Bool
  variants : List CatalogVariant
  addons : List CatalogAddon
  inventory : Option Inventory
deriving DecidableEq, Repr

/-- A requested add-on in the raw order payload. -/
structure RawAddon where
  addonId : String
  quantity : Nat
deriving DecidableEq, Repr

/-- A requested line item in the raw order payload (`items[]` of
`POST /api/orders`); an absent `addons` array is the empty list. -/
structure RawItem where
  productId : String
  variantId : Option String
  quantity : Nat
  note : Option String
  addons : List RawAddon
deriving DecidableEq, Repr

/-- A validated add-on (`validatedAddons` entries), its price frozen from
the catalog. -/
structure ValidatedAddon where
  addonId : String
  quantity : Nat
  price : Rat
deriving DecidableEq, Repr

/-- The `OrderItem` interface of `linePayService.ts`: a priced validated
line item; `addons` is `undefined` when no add-on was selected. -/
structure OrderItem where
  productId : String
  variantId : Option String
  quantity : Nat
  unitPrice : Rat
  totalPrice : Rat
  note : Option String
  addons : Option (List ValidatedAddon)
deriving DecidableEq, Repr

/-- The inner `for (const addon of item.addons)` loop of
`validateOrderItems`: validates each requested add-on against the product's
add-on list and accumulates the validated list together with the price
contribution `Σ addon price × addon quantity` added to the unit price. -/
def validateAddons (productAddons : List CatalogAddon) :
    List RawAddon → Except String (List ValidatedAddon × Rat)
  | [] => .ok ([], 0)
  | a :: rest =>
    match productAddons.find? (fun pa => pa.id == a.addonId) with
    | none => .error ("加購項目不存在: " ++ a.addonId)
    | some pa =>
      if a.quantity > pa.maxQuantity then
        .error ("加購項目數量超過限制: " ++ pa.name)
      else
        match validateAddons productAddons rest with
        | .error e => .error e
        | .ok (vs, p) =>
          .ok ({ addonId := a.addonId, quantity := a.quantity, price := pa.price } :: vs,
               pa.price * (a.quantity : Rat) + p)

/-- The `prisma.product.findFirst` `where` clause of `validateOrderItems`:
product id, store, and availability. -/
def productQueryMatch (productId storeId : String) (p : Product) : Bool :=
  p.id == productId && p.storeId == storeId && p.isAvailable

/-- One iteration of the `for (const item of items)` loop of
`validateOrderItems`: product lookup, stock check, variant price override,
add-on validation, and the final unit and line totals. -/
def validateOneItem (products : List Product) (storeId : String) (item : RawItem) :
    Except String OrderItem :=
  match products.find? (productQueryMatch item.productId storeId) with
  | none => .error ("商品不存在或已下架: " ++ item.productId)
  | some product =>
    match product.inventory with
    | some inv =>
      if inv.quantity < item.quantity then
        .error ("商品庫存不足: " ++ product.name)
      else validateOneItemPriced products storeId item product
    | none => validateOneItemPriced products storeId item product
where
  /-- The pricing part of the loop body, after the stock check. -/
  validateOneItemPriced (_products : List Product) (_storeId : String)
      (item : RawItem) (product : Product) : Except String OrderItem :=
    let baseResult : Except String Rat :=
      match item.variantId with
      | none => .ok product.basePrice
      | some vid =>
        match product.variants.find? (fun v => v.id == vid) with
        | none => .error ("商品規格不存在: " ++ vid)
        | some variant => .ok variant.price
    match baseResult with
    | .error e => .error e
    | .ok base =>
      match validateAddons product.addons item.addons with
      | .error e => .error e
      | .ok (validatedAddons, addonPrice) =>
        let unitPrice := base + addonPrice
        let totalPrice := unitPrice * (item.quantity : Rat)
        .ok { productId := item.productId
              variantId := item.variantId
              quantity := item.quantity
              unitPrice := unitPrice
              totalPrice := totalPrice
              note := item.note
              addons := if validatedAddons.length > 0 then some validatedAddons else none }

/-- `OrderService.validateOrderItems(items, storeId)` over an explicit
product table: validates every requested line in order, failing on the
first bad one. -/
def validateOrderItems (products : List Product) (storeId : String) :
    List RawItem → Except String (List OrderItem)
  | [] => .ok []
  | item :: rest =>
    match validateOneItem products storeId item with
    | .error e => .error e
    | .ok v =>
      match validateOrderItems products storeId rest with
      | .error e => .error e
      | .ok vs => .ok (v :: vs)

/-- `POST /api/orders`: `totalAmount = validatedItems.reduce((sum, item) =>
sum + item.totalPrice, 0)`. -/
def totalAmountOf (items : List OrderItem) : Rat :=
  items.foldl (fun sum item => sum + item.totalPrice) 0

/-- `POST /api/orders`: `finalAmount = totalAmount - discountAmount`. -/
def finalAmountOf (totalAmount discountAmount : Rat) : Rat :=
  totalAmount - discountAmount

/-! ## Order number allocator (`OrderService.generateOrderNumber`) -/

/-- The decimal digit character for `d < 10`. -/
def digitChar (d : Nat) : Char := Char.ofNat (48 + d)

/-- Decimal representation of a natural number (the embedding of JS
`Number.prototype.toString()` on a non-negative integer), most significant
digit first. -/
def natToDecimal (n : Nat) : List Char :=
  if h : n < 10 then [digitChar n]
  else
    have : n / 10 < n := Nat.div_lt_self (by omega) (by omega)
    natToDecimal (n / 10) ++ [digitChar (n % 10)]

/-- JS `String.prototype.padStart(targetLength, c)` on the character list:
prepend copies of `c` up to `targetLength`. -/
def padStartList (l : List Char) (targetLength : Nat) (c : Char) : List Char :=
  List.replicate (targetLength - l.length) c ++ l

/-- Reads a digit list back as a natural number (used only in theorem
statements, to express what the zero-padded sequence denotes). -/
def natOfDigits (l : List Char) : Nat :=
  l.foldl (fun acc c => acc * 10 + (c.toNat - 48)) 0

/-- A row of the `order` table as seen by the `prisma.order.count` query of
`generateOrderNumber`: owning store and creation timestamp (ms). -/
structure OrderRow where
  storeId : String
  createdAt : Int
deriving DecidableEq, Repr

/-- `24 * 60 * 60 * 1000`: the length of the `[startOfDay, endOfDay)`
window of `generateOrderNumber`. -/
def millisPerDay : Int := 24 * 60 * 60 * 1000

/-- The `prisma.order.count` query of `generateOrderNumber`: orders of the
store created in `[startOfDay, startOfDay + 24h)`. -/
def todayOrderCount (orders : List OrderRow) (storeId : String) (startOfDay : Int) : Nat :=
  (orders.filter (fun o =>
    o.storeId == storeId && decide (startOfDay ≤ o.createdAt)
      && decide (o.createdAt < startOfDay + millisPerDay))).length

/-- `OrderService.generateOrderNumber(storeId)` over an explicit order
table.  `dateStr` and `startOfDay` stand for the values the source derives
from `new Date()` (the yyyymmdd string and the start-of-day timestamp);
the sequence is `(todayOrderCount + 1).toString().padStart(4, '0')`. -/
def generateOrderNumber (orders : List OrderRow) (storeId : String)
    (dateStr : String) (startOfDay : Int) : String :=
  let todayCount := todayOrderCount orders storeId startOfDay
  let sequence := padStartList (natToDecimal (todayCount + 1)) 4 '0'
  dateStr ++ String.mk sequence

/-! ## Preparation time heuristic (`OrderService.calculateEstimatedTime`) -/

/-- The filter `item.addons && item.addons.length > 0` of
`calculateEstimatedTime`. -/
def hasAddons (item : OrderItem) : Bool :=
  match item.addons with
  | some l => decide (l.length > 0)
  | none => false

/-- `OrderService.calculateEstimatedTime(items)`: base 10 minutes, plus
`Math.max(0, (totalQuantity - 1) * 2)`, plus 3 minutes per line with at
least one add-on. -/
def calculateEstimatedTime (items : List OrderItem) : Int :=
  let baseTime : Int := 10
  let totalQuantity : Int := items.foldl (fun sum item => sum + (item.quantity : Int)) 0
  let additionalTime : Int := max 0 ((totalQuantity - 1) * 2)
  let complexityTime : Int := ((items.filter hasAddons).length : Int) * 3
  baseTime + additionalTime + complexityTime

/-! ## Completion side effects (`handleOrderCompletion` and helpers) -/

/-- A row of the `memberPoint` table created by `updateMemberPoints`. -/
structure MemberPoint where
  userId : String
  points : Int
  type : String
  description : String
deriving DecidableEq, Repr

/-- `OrderService.updateMemberPoints(customerId, orderAmount)`: computes
`Math.floor(orderAmount / 10)` and appends one `EARN` ledger row when the
result is positive. -/
def updateMemberPoints (ledger : List MemberPoint) (customerId : String)
    (orderAmount : Rat) : List MemberPoint :=
  let points : Int := Int.floor (orderAmount / 10)
  if points > 0 then
    ledger ++ [{ userId := customerId, points := points, type := "EARN",
                 description := "訂單消費獲得積分" }]
  else ledger

/-- A row of the `customerProfile` table, with the fields read and written
by `updateCustomerSpending`. -/
structure CustomerProfile where
  userId : String
  totalSpent : Rat
  loyaltyTier : String
deriving DecidableEq, Repr

/-- `OrderService.calculateLoyaltyTier(totalSpent)`. -/
def calculateLoyaltyTier (totalSpent : Rat) : String :=
  if totalSpent ≥ 10000 then "PLATINUM"
  else if totalSpent ≥ 5000 then "GOLD"
  else if totalSpent ≥ 1000 then "SILVER"
  else "BRONZE"

/-- `OrderService.updateCustomerSpending(customerId, amount)`: increment
`totalSpent` on the customer's profile rows (`updateMany` on `userId`),
re-read the profile, and persist the recomputed tier when it changed. -/
def updateCustomerSpending (profiles : List CustomerProfile) (customerId : String)
    (amount : Rat) : List CustomerProfile :=
  let incremented := profiles.map (fun p =>
    if p.userId == customerId then { p with totalSpent := p.totalSpent + amount } else p)
  match incremented.find? (fun p => p.userId == customerId) with
  | none => incremented
  | some customerProfile =>
    let newTier := calculateLoyaltyTier customerProfile.totalSpent
    if newTier ≠ customerProfile.loyaltyTier then
      incremented.map (fun p =>
        if p.userId == customerId then { p with loyaltyTier := newTier } else p)
    else incremented

/-- The persistent state touched by `handleOrderCompletion`: the point
ledger and the customer profiles. -/
structure LoyaltyState where
  memberPoints : List MemberPoint
  profiles : List CustomerProfile
deriving DecidableEq, Repr

/-- `OrderService.handleOrderCompletion(order)`: member points, sales-stat
logging (a no-op on state), then customer spending and tier. -/
def handleOrderCompletion (st : LoyaltyState) (customerId : String)
    (finalAmount : Rat) : LoyaltyState :=
  { memberPoints := updateMemberPoints st.memberPoints customerId finalAmount,
    profiles := updateCustomerSpending st.profiles customerId finalAmount }

/-! ## Socket room membership (`socketService.ts`) -/

/-- A row of the `store` table as read by `SocketManager.verifyStoreAccess`. -/
structure StoreRow where
  id : String
  tenantId : String
deriving DecidableEq, Repr

/-- `SocketManager.verifyStoreAccess(tenantId, storeId)`: a
`prisma.store.findFirst` on id and tenant, truthy iff a row exists. -/
def verifyStoreAccess (stores : List StoreRow) (tenantId storeId : String) : Bool :=
  (stores.find? (fun s => s.id == storeId && s.tenantId == tenantId)).isSome

/-- The observable state of one socket connection: the rooms it has joined
and the (event, message) pairs emitted back to it. -/
structure SocketState where
  rooms : List String
  emitted : List (String × String)
deriving DecidableEq, Repr

/-- The `join-store` handler of `setupUserHandlers`: on access, join the
`store:` room and emit `store-joined`; otherwise emit an `error` with the
forbidden message and join nothing. -/
def joinStoreRoom (stores : List StoreRow) (userTenantId : String)
    (st : SocketState) (storeId : String) : SocketState :=
  if verifyStoreAccess stores userTenantId storeId then
    { rooms := st.rooms ++ ["store:" ++ storeId],
      emitted := st.emitted ++ [("store-joined", "已連接到店鋪即時通知")] }
  else
    { rooms := st.rooms,
      emitted := st.emitted ++ [("error", "無權限訪問該店鋪")] }

/-! ## Status-change endpoints (`routes/orders.ts`, `socketService.ts`) -/

/-- A row of the `order` table as seen by the status-change operations:
id, owning tenant (through the store relation), and current status. -/
structure OrderStatusRow where
  id : String
  tenantId : String
  status : String
deriving DecidableEq, Repr

/-- The `body('status').isIn([...])` validator shared by
`PATCH /api/orders/:id/status` and `PATCH /api/orders/batch-status`. -/
def statusBodyValues : List String :=
  ["CONFIRMED", "PREPARING", "READY", "COMPLETED", "CANCELLED"]

/-- `PATCH /api/orders/:id/status`: find the order in the tenant, check
`validateStatusTransition`, and update.  Returns the updated table. -/
def patchOrderStatus (db : List OrderStatusRow) (tenantId orderId newStatus : String) :
    Except String (List OrderStatusRow) :=
  if !(statusBodyValues.contains newStatus) then .error "輸入數據無效"
  else
    match db.find? (fun o => o.id == orderId && o.tenantId == tenantId) with
    | none => .error "訂單不存在"
    | some order =>
      if !(validateStatusTransition order.status newStatus) then
        .error ("無法從" ++ order.status ++ "轉換為" ++ newStatus)
      else
        .ok (db.map (fun o => if o.id == orderId then { o with status := newStatus } else o))

/-- `PATCH /api/orders/batch-status`: validate that every requested order
belongs to the tenant, then `updateMany` sets the status on all of them;
no `validateStatusTransition` call appears on this path. -/
def batchUpdateOrderStatus (db : List OrderStatusRow) (tenantId : String)
    (orderIds : List String) (newStatus : String) : Except String (List OrderStatusRow) :=
  if orderIds.length < 1 || !(statusBodyValues.contains newStatus) then .error "輸入數據無效"
  else
    let orders := db.filter (fun o => orderIds.contains o.id && o.tenantId == tenantId)
    if orders.length ≠ orderIds.length then .error "部分訂單不存在或無權限"
    else
      .ok (db.map (fun o => if orderIds.contains o.id then { o with status := newStatus } else o))

/-- The staff role guard of the socket `update-order-status` handler. -/
def staffRoles : List String := ["TENANT_ADMIN", "STORE_MANAGER", "STAFF"]

/-- The socket `update-order-status` handler of `setupOrderHandlers`: after
the role check it runs `prisma.order.update` directly on the given id; no
transition validation and no tenant scoping appear on this path. -/
def socketUpdateOrderStatus (db : List OrderStatusRow) (roles : List String)
    (orderId newStatus : String) : Except String (List OrderStatusRow) :=
  if !(roles.any (fun r => staffRoles.contains r)) then .error "權限不足"
  else if !((db.filter (fun o => o.id == orderId)).length == 1) then .error "訂單狀態更新失敗"
  else
    .ok (db.map (fun o => if o.id == orderId then { o with status := newStatus } else o))

/-! ## POS order creation (`routes/pos.ts`) -/

/-- The fields of the `prisma.order.create` call of `POST /api/pos/orders`
that the claims are about. -/
structure PosOrder where
  orderNumber : String
  storeId : String
  status : String
  totalAmount : Rat
  discountAmount : Rat
  finalAmount : Rat
  paymentStatus : String
deriving DecidableEq, Repr

/-- A row of the `orderStatusHistory` table. -/
structure StatusHistoryEntry where
  orderId : String
  status : String
  note : String
  createdBy : String
deriving DecidableEq, Repr

/-- `POST /api/pos/orders`: creates the order directly in `CONFIRMED` with
zero discount and `finalAmount = totalAmount`, then records exactly one
`CONFIRMED` history entry.  Returns the created order and its history. -/
def posCreateOrder (validatedItems : List OrderItem) (orderId orderNumber storeId : String)
    (paymentMethod staffId staffName : String) : PosOrder × List StatusHistoryEntry :=
  let totalAmount := totalAmountOf validatedItems
  let order : PosOrder :=
    { orderNumber := orderNumber
      storeId := storeId
      status := "CONFIRMED"
      totalAmount := totalAmount
      discountAmount := 0
      finalAmount := totalAmount
      paymentStatus := if paymentMethod == "CASH" then "COMPLETED" else "PENDING" }
  let history : List StatusHistoryEntry :=
    [{ orderId := orderId, status := "CONFIRMED",
       note := "POS訂單創建 (員工: " ++ staffName ++ ")", createdBy := staffId }]
  (order, history)

/-- An example percentage coupon (10% off, no cap, no minimum), used to
instantiate the coupon theorems. -/
def exampleCoupon10 : Coupon :=
  { code := "SAVE10", storeId := "s1", isActive := true,
    validFrom := 0, validUntil := 1000000,
    type := CouponType.PERCENTAGE, value := 10,
    maxDiscount := none, usageLimit := none, usedCount := 0,
    minOrderAmount := none }

/-- The total requested quantity of a validated item list, as summed by
`calculateEstimatedTime`. -/
def totalQuantityOf (items : List OrderItem) : Int :=
  items.foldl (fun sum item => sum + (item.quantity : Int)) 0

/-- An example two-line validated item list: two units of a 60-dollar
product, and one unit of a product with an add-on. -/
def exampleItems : List OrderItem :=
  [{ productId := "pA", variantId := none, quantity := 2, unitPrice := 60,
     totalPrice := 120, note := none, addons := none },
   { productId := "pB", variantId := none, quantity := 1, unitPrice := 55,
     totalPrice := 55, note := none,
     addons := some [{ addonId := "a1", quantity := 1, price := 10 }] }]

/-- The guard `coupon.minOrderAmount && orderAmount < parseFloat(...)` of
`validateCoupon` (a Prisma decimal object is truthy even at zero). -/
def minimumNotMet (c : Coupon) (orderAmount : Rat) : Bool :=
  match c.minOrderAmount with
  | some m => decide (orderAmount < m)
  | none => false

/-- An inactive coupon, otherwise valid at time 10. -/
def inactiveCoupon : Coupon :=
  { code := "C1", storeId := "s1", isActive := false,
    validFrom := 0, validUntil := 1000,
    type := CouponType.PERCENTAGE, value := 10,
    maxDiscount := none, usageLimit := none, usedCount := 0,
    minOrderAmount := none }

/-- An active coupon whose validity window ended before time 10. -/
def expiredCoupon : Coupon :=
  { code := "C1", storeId := "s1", isActive := true,
    validFrom := 0, validUntil := 5,
    type := CouponType.PERCENTAGE, value := 10,
    maxDiscount := none, usageLimit := none, usedCount := 0,
    minOrderAmount := none }

/-- The customer's total earned points in the ledger (observation used to
state the C8 claim). -/
def pointsFor (ledger : List MemberPoint) (uid : String) : Int :=
  ((ledger.filter (fun e => e.userId == uid)).map MemberPoint.points).sum

/-- A customer profile just below the Silver threshold. -/
def exampleProfile : CustomerProfile :=
  { userId := "u1", totalSpent := 950, loyaltyTier := "BRONZE" }

/-- A loyalty state with an empty ledger and the example profile. -/
def exampleState : LoyaltyState :=
  { memberPoints := [], profiles := [exampleProfile] }

/-- The add-on contribution recorded on a validated line item:
`Σ add-on unit price × add-on quantity`, zero when no add-on was kept. -/
def addonsTotal : Option (List ValidatedAddon) → Rat
  | none => 0
  | some l => (l.map (fun a => a.price * (a.quantity : Rat))).sum

/-- The pricing contract of one validated line item (statement of the C4
claim): the catalog product is the one looked up for this line, the line
total is unit price × quantity, and the unit price is the variant price
(or base price) plus the add-on contribution. -/
def itemPriceCorrect (products : List Product) (storeId : String) (v : OrderItem) : Prop :=
  ∃ p, products.find? (productQueryMatch v.productId storeId) = some p ∧
    v.totalPrice = v.unitPrice * (v.quantity : Rat) ∧
    (match v.variantId with
     | none => v.unitPrice = p.basePrice + addonsTotal v.addons
     | some vid => ∃ w, p.variants.find? (fun x => x.id == vid) = some w ∧
         v.unitPrice = w.price + addonsTotal v.addons)

/-- The catalog product of the spec's worked example: product A at base
price 60, available, no variants, add-ons or inventory row. -/
def exampleProductA : Product :=
  { id := "pA", storeId := "s1", name := "Product A", basePrice := 60,
    isAvailable := true, variants := [], addons := [], inventory := none }

/-- The raw request line of the worked example: two units of product A. -/
def exampleRawA : RawItem :=
  { productId := "pA", variantId := none, quantity := 2, note := none, addons := [] }

/-- The validated line the engine produces for the worked example. -/
def exampleItemA : OrderItem :=
  { productId := "pA", variantId := none, quantity := 2, unitPrice := 60,
    totalPrice := 120, note := none, addons := none }

/-! ## Theorems -/

/-- C1: for every current and requested status, `validateStatusTransition`
succeeds iff the pair is in the allowed-next table
Pending→{Confirmed,Cancelled}, Confirmed→{Preparing,Cancelled},
Preparing→{Ready,Cancelled}, Ready→{Completed}, Completed→{},
Cancelled→{}; in particular Pending→Preparing always fails,
Ready→Completed always succeeds, and staying in place is always rejected. -/
theorem C1_transition_table :
    (∀ c n : String, validateStatusTransition c n = true ↔ (c, n) ∈ allowedPairs) ∧
    validateStatusTransition "PENDING" "PREPARING" = false ∧
    validateStatusTransition "READY" "COMPLETED" = true ∧
    (∀ s : String, validateStatusTransition s s = false) := by
  refine ⟨?_, by decide, by decide, ?_⟩
  · intro c n
    unfold validateStatusTransition validTransitions
    split_ifs with h1 h2 h3 h4 h5 h6 <;> subst_vars <;>
      simp only [allowedPairs, List.contains_cons, List.contains_nil,
        List.mem_cons, List.not_mem_nil, Prod.mk.injEq, Bool.or_eq_true,
        beq_iff_eq, or_false, false_or] <;>
      simp_all
  · intro s
    unfold validateStatusTransition validTransitions
    split_ifs <;> subst_vars <;> simp

/-- C2 (bug evidence): a COMPLETED order is terminal per the state machine,
yet the batch endpoint and the socket handler both move it to PREPARING,
while the single-order endpoint correctly rejects the same change. -/
theorem C2_terminal_bypass :
    validateStatusTransition "COMPLETED" "PREPARING" = false ∧
    batchUpdateOrderStatus [{ id := "o1", tenantId := "t1", status := "COMPLETED" }]
        "t1" ["o1"] "PREPARING"
      = .ok [{ id := "o1", tenantId := "t1", status := "PREPARING" }] ∧
    socketUpdateOrderStatus [{ id := "o1", tenantId := "t1", status := "COMPLETED" }]
        ["STAFF"] "o1" "PREPARING"
      = .ok [{ id := "o1", tenantId := "t1", status := "PREPARING" }] ∧
    patchOrderStatus [{ id := "o1", tenantId := "t1", status := "COMPLETED" }]
        "t1" "o1" "PREPARING"
      = .error "無法從COMPLETED轉換為PREPARING" := by
  refine ⟨by decide, rfl, rfl, rfl⟩

/-- C10: a POS-created order is created directly in CONFIRMED (never
PENDING), with zero discount, final amount equal to the gross total, and a
single initial history entry recording CONFIRMED. -/
theorem C10_pos_order_confirmed (validatedItems : List OrderItem)
    (orderId orderNumber storeId paymentMethod staffId staffName : String) :
    (posCreateOrder validatedItems orderId orderNumber storeId paymentMethod staffId staffName).1.status
      = "CONFIRMED" ∧
    (posCreateOrder validatedItems orderId orderNumber storeId paymentMethod staffId staffName).1.status
      ≠ "PENDING" ∧
    (posCreateOrder validatedItems orderId orderNumber storeId paymentMethod staffId staffName).1.discountAmount
      = 0 ∧
    (posCreateOrder validatedItems orderId orderNumber storeId paymentMethod staffId staffName).1.finalAmount
      = (posCreateOrder validatedItems orderId orderNumber storeId paymentMethod staffId staffName).1.totalAmount ∧
    (posCreateOrder validatedItems orderId orderNumber storeId paymentMethod staffId staffName).2.map
        StatusHistoryEntry.status = ["CONFIRMED"] ∧
    (posCreateOrder validatedItems orderId orderNumber storeId paymentMethod staffId staffName).2.length
      = 1 := by
  refine ⟨rfl, by simp [posCreateOrder], rfl, rfl, rfl, rfl⟩

/-- C3: with a nonnegative coupon value and cap and a nonnegative gross,
the computed discount lies between 0 and the gross, and the final amount is
gross − discount, hence never negative. -/
theorem C3_discount_bounds (coupon : Coupon) (gross : Rat)
    (hv : 0 ≤ coupon.value)
    (hm : ∀ m, coupon.maxDiscount = some m → 0 ≤ m)
    (hg : 0 ≤ gross) :
    0 ≤ calculateDiscount coupon gross ∧
    calculateDiscount coupon gross ≤ gross ∧
    finalAmountOf gross (calculateDiscount coupon gross)
      = gross - calculateDiscount coupon gross ∧
    0 ≤ finalAmountOf gross (calculateDiscount coupon gross) := by
  have key : 0 ≤ calculateDiscount coupon gross ∧ calculateDiscount coupon gross ≤ gross := by
    cases hty : coupon.type <;> cases hmd : coupon.maxDiscount <;>
      simp only [calculateDiscount, hty, hmd] <;>
      refine ⟨le_min ?_ hg, min_le_right _ _⟩ <;>
      (try split_ifs with hif) <;>
      first
        | exact hm _ hmd
        | exact mul_nonneg hg (div_nonneg hv (by norm_num))
        | exact hv
        | exact le_refl 0
  refine ⟨key.1, key.2, rfl, ?_⟩
  have := key.2
  unfold finalAmountOf
  linarith

/-- Witness for C3 at the spec's example: a 10% coupon on a gross of 120
gives a discount of 12 and a net of 108, within bounds. -/
theorem C3_discount_bounds_witness :
    (0 ≤ calculateDiscount exampleCoupon10 120 ∧
     calculateDiscount exampleCoupon10 120 ≤ 120 ∧
     finalAmountOf 120 (calculateDiscount exampleCoupon10 120)
       = 120 - calculateDiscount exampleCoupon10 120 ∧
     0 ≤ finalAmountOf 120 (calculateDiscount exampleCoupon10 120)) ∧
    calculateDiscount exampleCoupon10 120 = 12 ∧
    finalAmountOf 120 (calculateDiscount exampleCoupon10 120) = 108 := by
  refine ⟨C3_discount_bounds exampleCoupon10 120 (by norm_num [exampleCoupon10])
    (by simp [exampleCoupon10]) (by norm_num), ?_, ?_⟩ <;>
    simp [calculateDiscount, exampleCoupon10, finalAmountOf] <;> norm_num

/-- C9: a store-room join succeeds exactly when the connection's tenant
owns the target store; a denied connection gets an explicit error event and
its room membership is unchanged, an allowed one is joined to the store
room. -/
theorem C9_join_store_access (stores : List StoreRow) (tenantId : String)
    (st : SocketState) (storeId : String) :
    (verifyStoreAccess stores tenantId storeId = true ↔
      ∃ s ∈ stores, s.id = storeId ∧ s.tenantId = tenantId) ∧
    (verifyStoreAccess stores tenantId storeId = false →
      (joinStoreRoom stores tenantId st storeId).rooms = st.rooms ∧
      (joinStoreRoom stores tenantId st storeId).emitted
        = st.emitted ++ [("error", "無權限訪問該店鋪")]) ∧
    (verifyStoreAccess stores tenantId storeId = true →
      (joinStoreRoom stores tenantId st storeId).rooms
        = st.rooms ++ ["store:" ++ storeId] ∧
      (joinStoreRoom stores tenantId st storeId).emitted
        = st.emitted ++ [("store-joined", "已連接到店鋪即時通知")]) := by
  refine ⟨?_, ?_, ?_⟩
  · unfold verifyStoreAccess
    rw [List.find?_isSome]
    constructor
    · rintro ⟨s, hs, hpred⟩
      simp only [Bool.and_eq_true, beq_iff_eq] at hpred
      exact ⟨s, hs, hpred.1, hpred.2⟩
    · rintro ⟨s, hs, h1, h2⟩
      exact ⟨s, hs, by simp [h1, h2]⟩
  · intro h
    unfold joinStoreRoom
    rw [h]
    simp
  · intro h
    unfold joinStoreRoom
    rw [h]
    simp

/-- Witness for C9: a tenant that does not own the store is denied with an
error event and joins nothing; the owning tenant is joined. -/
theorem C9_join_store_access_witness :
    (verifyStoreAccess [{ id := "s1", tenantId := "t1" }] "t2" "s1" = false ∧
     (joinStoreRoom [{ id := "s1", tenantId := "t1" }] "t2"
         { rooms := ["tenant:t2"], emitted := [] } "s1").rooms = ["tenant:t2"] ∧
     (joinStoreRoom [{ id := "s1", tenantId := "t1" }] "t2"
         { rooms := ["tenant:t2"], emitted := [] } "s1").emitted
       = [("error", "無權限訪問該店鋪")]) ∧
    (joinStoreRoom [{ id := "s1", tenantId := "t1" }] "t1"
        { rooms := ["tenant:t1"], emitted := [] } "s1").rooms
      = ["tenant:t1", "store:s1"] := by
  have hdeny := (C9_join_store_access [{ id := "s1", tenantId := "t1" }] "t2"
    { rooms := ["tenant:t2"], emitted := [] } "s1").2.1 (by decide)
  have hallow := (C9_join_store_access [{ id := "s1", tenantId := "t1" }] "t1"
    { rooms := ["tenant:t1"], emitted := [] } "s1").2.2 (by decide)
  exact ⟨⟨by decide, hdeny.1, hdeny.2.trans (by decide)⟩, hallow.1.trans (by decide)⟩

/-- C7: for a validated item list with at least one unit of quantity, the
estimated preparation time is exactly 10 base units, plus 2 per unit of
quantity beyond the first, plus 3 per line carrying at least one add-on. -/
theorem C7_estimated_time (items : List OrderItem)
    (h : 1 ≤ totalQuantityOf items) :
    calculateEstimatedTime items =
      10 + (totalQuantityOf items - 1) * 2
        + ((items.filter hasAddons).length : Int) * 3 := by
  unfold totalQuantityOf at *
  simp only [calculateEstimatedTime]
  rw [max_eq_right (by omega)]

/-- Witness for C7: the example list has total quantity 3 and one add-on
line, so the estimate is 10 + 4 + 3 = 17. -/
theorem C7_estimated_time_witness :
    1 ≤ totalQuantityOf exampleItems ∧
    calculateEstimatedTime exampleItems =
      10 + (totalQuantityOf exampleItems - 1) * 2
        + ((exampleItems.filter hasAddons).length : Int) * 3 ∧
    calculateEstimatedTime exampleItems = 17 := by
  refine ⟨by decide, C7_estimated_time exampleItems (by decide), by decide⟩

/-- Reading digits after a block of leading zero padding gives the same
number. -/
theorem natOfDigits_replicate_zero (k : Nat) (l : List Char) :
    natOfDigits (List.replicate k '0' ++ l) = natOfDigits l := by
  induction k with
  | zero => simp
  | succ k ih =>
    have : natOfDigits (List.replicate (k + 1) '0' ++ l)
        = natOfDigits (List.replicate k '0' ++ l) := by
      simp only [natOfDigits, List.replicate_succ, List.cons_append, List.foldl_cons]
      norm_num
      rw [(show Char.toNat '0' - 48 = 0 by decide)]
    rw [this, ih]

/-- Appending one digit multiplies the read value by ten and adds the
digit. -/
theorem natOfDigits_append_singleton (l : List Char) (c : Char) :
    natOfDigits (l ++ [c]) = natOfDigits l * 10 + (c.toNat - 48) := by
  simp [natOfDigits, List.foldl_append]

/-- The code of a decimal digit. -/
theorem toNat_digitChar (d : Nat) (h : d < 10) : (digitChar d).toNat = 48 + d := by
  interval_cases d <;> decide

/-- `natToDecimal` round-trips through `natOfDigits`. -/
theorem natOfDigits_natToDecimal (n : Nat) : natOfDigits (natToDecimal n) = n := by
  induction n using Nat.strong_induction_on with
  | _ n ih =>
    unfold natToDecimal
    split_ifs with h
    · simp [natOfDigits, toNat_digitChar n h]
    · rw [natOfDigits_append_singleton,
        ih (n / 10) (Nat.div_lt_self (by omega) (by omega)),
        toNat_digitChar (n % 10) (Nat.mod_lt n (by omega))]
      omega

/-- C6: the allocated order number is the date string followed by the
zero-padded decimal sequence number, and that sequence reads back as the
count of the store's orders already created on that day, plus one. -/
theorem C6_order_number (orders : List OrderRow) (storeId dateStr : String)
    (startOfDay : Int) :
    ∃ seq : List Char,
      generateOrderNumber orders storeId dateStr startOfDay
        = dateStr ++ String.mk seq ∧
      seq = padStartList (natToDecimal (todayOrderCount orders storeId startOfDay + 1)) 4 '0' ∧
      natOfDigits seq = todayOrderCount orders storeId startOfDay + 1 ∧
      4 ≤ seq.length := by
  refine ⟨padStartList (natToDecimal (todayOrderCount orders storeId startOfDay + 1)) 4 '0',
    rfl, rfl, ?_, ?_⟩
  · unfold padStartList
    rw [natOfDigits_replicate_zero, natOfDigits_natToDecimal]
  · unfold padStartList
    rw [List.length_append, List.length_replicate]
    omega

/-- C5 (counterexample): an inactive coupon and an expired coupon are
rejected with the *same* error value, so the missing-or-inactive case and
the expired case are not reported as distinguishable error kinds. -/
theorem C5_counterexample_indistinct_errors :
    validateCoupon [inactiveCoupon] "C1" "s1" 10 100 = .error "優惠券不存在或已過期" ∧
    validateCoupon [expiredCoupon] "C1" "s1" 10 100 = .error "優惠券不存在或已過期" ∧
    validateCoupon [inactiveCoupon] "C1" "s1" 10 100
      = validateCoupon [expiredCoupon] "C1" "s1" 10 100 :=
  ⟨rfl, rfl, rfl⟩

/-- C5 (amended): coupon validation rejects exactly when the coupon is
missing, inactive or outside its window (one combined error), at or over a
configured nonzero usage limit, or with gross below the configured minimum;
otherwise it returns the found coupon unchanged. -/
theorem C5_coupon_validation (coupons : List Coupon) (code storeId : String)
    (now : Int) (amount : Rat) :
    (∀ c, validateCoupon coupons code storeId now amount = .ok c ↔
      (coupons.find? (couponQueryMatch code storeId now) = some c ∧
       usageLimitReached c = false ∧ minimumNotMet c amount = false)) ∧
    (coupons.find? (couponQueryMatch code storeId now) = none →
      validateCoupon coupons code storeId now amount
        = .error "優惠券不存在或已過期") ∧
    (∀ c, coupons.find? (couponQueryMatch code storeId now) = some c →
      usageLimitReached c = true →
      validateCoupon coupons code storeId now amount
        = .error "優惠券使用次數已達上限") ∧
    (∀ c, coupons.find? (couponQueryMatch code storeId now) = some c →
      usageLimitReached c = false → minimumNotMet c amount = true →
      ∃ m, c.minOrderAmount = some m ∧ amount < m ∧
        validateCoupon coupons code storeId now amount
          = .error ("最低消費金額為 " ++ toString m)) := by
  refine ⟨?_, ?_, ?_, ?_⟩
  · intro c
    constructor
    · intro h
      cases hf : coupons.find? (couponQueryMatch code storeId now) with
      | none => simp [validateCoupon, hf] at h
      | some c' =>
        simp only [validateCoupon, hf] at h
        by_cases hl : usageLimitReached c' = true
        · simp [hl] at h
        · rw [Bool.not_eq_true] at hl
          simp only [hl, Bool.false_eq_true, if_false] at h
          cases hmo : c'.minOrderAmount with
          | none =>
            rw [hmo] at h
            simp only [Except.ok.injEq] at h
            subst h
            exact ⟨rfl, hl, by simp [minimumNotMet, hmo]⟩
          | some m =>
            rw [hmo] at h
            by_cases hlt : amount < m
            · simp [hlt] at h
            · simp only [hlt, if_false, Except.ok.injEq] at h
              subst h
              exact ⟨rfl, hl, by simp [minimumNotMet, hmo, hlt]⟩
    · rintro ⟨hf, hl, hm⟩
      simp only [validateCoupon, hf, hl, Bool.false_eq_true, if_false]
      cases hmo : c.minOrderAmount with
      | none => rfl
      | some m =>
        have hlt : ¬ amount < m := by
          simpa [minimumNotMet, hmo] using hm
        simp [hlt]
  · intro hf
    simp [validateCoupon, hf]
  · intro c hf hl
    simp [validateCoupon, hf, hl]
  · intro c hf hl hm
    have hex : ∃ m, c.minOrderAmount = some m ∧ amount < m := by
      unfold minimumNotMet at hm
      cases hmo : c.minOrderAmount with
      | none => rw [hmo] at hm; simp at hm
      | some m => rw [hmo] at hm; simp at hm; exact ⟨m, rfl, hm⟩
    obtain ⟨m, hmo, hlt⟩ := hex
    refine ⟨m, hmo, hlt, ?_⟩
    simp only [validateCoupon, hf, hl, Bool.false_eq_true, if_false, hmo]
    simp [hlt]

/-- Witness for C5 (amended): the example 10% coupon is accepted at gross
120 at time 10, agreeing with the characterization. -/
theorem C5_coupon_validation_witness :
    validateCoupon [exampleCoupon10] "SAVE10" "s1" 10 120 = .ok exampleCoupon10 ∧
    usageLimitReached exampleCoupon10 = false ∧
    minimumNotMet exampleCoupon10 120 = false :=
  ⟨((C5_coupon_validation [exampleCoupon10] "SAVE10" "s1" 10 120).1
      exampleCoupon10).mpr ⟨by decide, by decide, by decide⟩,
   by decide, by decide⟩

/-- A per-customer pointwise update commutes with looking the customer up,
provided the update preserves user ids. -/
theorem find?_map_preserving (l : List CustomerProfile) (cid : String)
    (g : CustomerProfile → CustomerProfile) (hg : ∀ p, (g p).userId = p.userId) :
    (l.map (fun p => if p.userId == cid then g p else p)).find?
        (fun q => q.userId == cid)
      = (l.find? (fun q => q.userId == cid)).map g := by
  induction l with
  | nil => rfl
  | cons p rest ih =>
    by_cases hp : (p.userId == cid) = true
    · simp only [List.map_cons, hp, if_true, List.find?_cons]
      have hgp : ((g p).userId == cid) = true := by rw [hg p]; exact hp
      rw [hgp]
      rfl
    · have hp' : (p.userId == cid) = false := by simpa using hp
      simp only [List.map_cons, hp', Bool.false_eq_true, if_false, List.find?_cons, ih]

/-- Specialization of `find?_map_preserving` to the `totalSpent` increment
of `updateCustomerSpending`. -/
theorem find?_increment_spent (l : List CustomerProfile) (cid : String) (n : Rat) :
    (l.map (fun p =>
        if p.userId == cid then { p with totalSpent := p.totalSpent + n } else p)).find?
        (fun q => q.userId == cid)
      = (l.find? (fun q => q.userId == cid)).map
          (fun p => { p with totalSpent := p.totalSpent + n }) :=
  find?_map_preserving l cid _ (fun _ => rfl)

/-- Specialization of `find?_map_preserving` to the tier write of
`updateCustomerSpending`. -/
theorem find?_set_tier (l : List CustomerProfile) (cid t : String) :
    (l.map (fun p =>
        if p.userId == cid then { p with loyaltyTier := t } else p)).find?
        (fun q => q.userId == cid)
      = (l.find? (fun q => q.userId == cid)).map
          (fun p => { p with loyaltyTier := t }) :=
  find?_map_preserving l cid _ (fun _ => rfl)

/-- C8: completing an order with net `n` adds `⌊n / 10⌋` EARN points to the
customer's ledger (and nothing else), adds `n` to the customer's lifetime
spend, and leaves the customer's tier equal to `calculateLoyaltyTier` of
the new cumulative spend, whose thresholds are exactly
Bronze < 1000 ≤ Silver < 5000 ≤ Gold < 10000 ≤ Platinum. -/
theorem C8_completion_effects (st : LoyaltyState) (cid : String) (n : Rat)
    (p : CustomerProfile) (hn : 0 ≤ n)
    (hfind : st.profiles.find? (fun q => q.userId == cid) = some p) :
    pointsFor (handleOrderCompletion st cid n).memberPoints cid
      = pointsFor st.memberPoints cid + Int.floor (n / 10) ∧
    (∀ e ∈ (handleOrderCompletion st cid n).memberPoints,
      e ∈ st.memberPoints ∨
        (e.type = "EARN" ∧ e.userId = cid ∧ e.points = Int.floor (n / 10))) ∧
    (handleOrderCompletion st cid n).profiles.find? (fun q => q.userId == cid)
      = some { p with totalSpent := p.totalSpent + n,
                      loyaltyTier := calculateLoyaltyTier (p.totalSpent + n) } ∧
    (∀ s : Rat,
      (calculateLoyaltyTier s = "PLATINUM" ↔ 10000 ≤ s) ∧
      (calculateLoyaltyTier s = "GOLD" ↔ 5000 ≤ s ∧ s < 10000) ∧
      (calculateLoyaltyTier s = "SILVER" ↔ 1000 ≤ s ∧ s < 5000) ∧
      (calculateLoyaltyTier s = "BRONZE" ↔ s < 1000)) := by
  refine ⟨?_, ?_, ?_, ?_⟩
  · show pointsFor (updateMemberPoints st.memberPoints cid n) cid = _
    simp only [updateMemberPoints]
    split_ifs with hpos
    · simp [pointsFor, List.filter_append]
    · have h0 : (0:Int) ≤ Int.floor (n / 10) := Int.floor_nonneg.mpr (by positivity)
      have hz : Int.floor (n / 10) = 0 := by omega
      simp [hz]
  · intro e he
    replace he : e ∈ updateMemberPoints st.memberPoints cid n := he
    simp only [updateMemberPoints] at he
    split_ifs at he with hpos
    · rcases List.mem_append.mp he with h | h
      · exact Or.inl h
      · simp only [List.mem_singleton] at h
        subst h
        exact Or.inr ⟨rfl, rfl, rfl⟩
    · exact Or.inl he
  · show (updateCustomerSpending st.profiles cid n).find? (fun q => q.userId == cid) = _
    simp only [updateCustomerSpending, find?_increment_spent, hfind, Option.map_some']
    split_ifs with hne
    · rw [find?_set_tier, find?_increment_spent, hfind]
      rfl
    · push_neg at hne
      rw [find?_increment_spent, hfind]
      simp only [Option.map_some', Option.some.injEq]
      rw [← hne]
  · intro s
    unfold calculateLoyaltyTier
    split_ifs with h1 h2 h3 <;>
      refine ⟨?_, ?_, ?_, ?_⟩ <;> constructor <;> intro hx <;>
      simp_all <;> try linarith

/-- Witness for C8 at the spec's example: net 108 earns ⌊108/10⌋ = 10
points, and the 950-spend Bronze customer crosses into Silver at 1058. -/
theorem C8_completion_effects_witness :
    pointsFor (handleOrderCompletion exampleState "u1" 108).memberPoints "u1" = 10 ∧
    (handleOrderCompletion exampleState "u1" 108).profiles.find?
        (fun q => q.userId == "u1")
      = some { userId := "u1", totalSpent := 1058, loyaltyTier := "SILVER" } := by
  have h := C8_completion_effects exampleState "u1" 108 exampleProfile
    (by decide) (by decide)
  have hfl : Int.floor ((108:Rat) / 10) = 10 := by norm_num [Int.floor_eq_iff]
  refine ⟨?_, ?_⟩
  · rw [h.1, hfl]
    simp [pointsFor, exampleState]
  · rw [h.2.2.1]
    simp only [exampleProfile]
    norm_num [calculateLoyaltyTier]

/-- The price accumulated by `validateAddons` is exactly the sum of
price × quantity over the validated add-ons it returns. -/
theorem validateAddons_ok (pas : List CatalogAddon) :
    ∀ (raws : List RawAddon) (vs : List ValidatedAddon) (t : Rat),
      validateAddons pas raws = .ok (vs, t) →
      t = (vs.map (fun a => a.price * (a.quantity : Rat))).sum := by
  intro raws
  induction raws with
  | nil =>
    intro vs t h
    simp only [validateAddons, Except.ok.injEq, Prod.mk.injEq] at h
    obtain ⟨h1, h2⟩ := h
    subst h1; subst h2
    simp
  | cons a rest ih =>
    intro vs t h
    simp only [validateAddons] at h
    cases hfa : pas.find? (fun pa => pa.id == a.addonId) with
    | none => simp [hfa] at h
    | some pa =>
      simp only [hfa] at h
      split_ifs at h with hq
      cases hrec : validateAddons pas rest with
      | error e => simp [hrec] at h
      | ok pr =>
        obtain ⟨vs', t'⟩ := pr
        simp only [hrec, Except.ok.injEq, Prod.mk.injEq] at h
        obtain ⟨hvs, ht⟩ := h
        subst hvs; subst ht
        rw [ih vs' t' hrec]
        simp

/-- Folding the line totals starting from `a` adds `a` to their sum. -/
theorem foldl_add_totalPrice (l : List OrderItem) (a : Rat) :
    l.foldl (fun sum item => sum + item.totalPrice) a
      = a + (l.map OrderItem.totalPrice).sum := by
  induction l generalizing a with
  | nil => simp
  | cons x xs ih => simp [ih, add_assoc]

/-- `totalAmount` as computed by the order routes is the sum of the line
totals. -/
theorem totalAmountOf_eq_sum (l : List OrderItem) :
    totalAmountOf l = (l.map OrderItem.totalPrice).sum := by
  unfold totalAmountOf
  rw [foldl_add_totalPrice]
  simp

/-- The `addons` field built by `validateOneItem` always carries the full
add-on contribution. -/
theorem addonsTotal_opt (l : List ValidatedAddon) :
    addonsTotal (if l.length > 0 then some l else none)
      = (l.map (fun a => a.price * (a.quantity : Rat))).sum := by
  split_ifs with h
  · rfl
  · have hl : l = [] := List.length_eq_zero.mp (by omega)
    subst hl
    rfl

/-- The pricing part of the loop body satisfies the line pricing
contract. -/
theorem validateOneItemPriced_ok (products : List Product) (storeId : String)
    (item : RawItem) (product : Product) (v : OrderItem)
    (hfind : products.find? (productQueryMatch item.productId storeId) = some product)
    (h : validateOneItem.validateOneItemPriced products storeId item product = .ok v) :
    itemPriceCorrect products storeId v := by
  cases hvid : item.variantId with
  | none =>
    simp only [validateOneItem.validateOneItemPriced, hvid] at h
    cases hva : validateAddons product.addons item.addons with
    | error e => simp [hva] at h
    | ok pr =>
      obtain ⟨vas, ap⟩ := pr
      simp only [hva, Except.ok.injEq] at h
      subst h
      refine ⟨product, by simpa using hfind, rfl, ?_⟩
      simp only [hvid]
      rw [addonsTotal_opt, ← validateAddons_ok product.addons item.addons vas ap hva]
  | some vid =>
    simp only [validateOneItem.validateOneItemPriced, hvid] at h
    cases hw : product.variants.find? (fun x => x.id == vid) with
    | none => simp [hw] at h
    | some w =>
      simp only [hw] at h
      cases hva : validateAddons product.addons item.addons with
      | error e => simp [hva] at h
      | ok pr =>
        obtain ⟨vas, ap⟩ := pr
        simp only [hva, Except.ok.injEq] at h
        subst h
        refine ⟨product, by simpa using hfind, rfl, ?_⟩
        simp only [hvid]
        refine ⟨w, hw, ?_⟩
        rw [addonsTotal_opt, ← validateAddons_ok product.addons item.addons vas ap hva]

/-- A line item accepted by `validateOneItem` satisfies the line pricing
contract. -/
theorem validateOneItem_ok (products : List Product) (storeId : String)
    (item : RawItem) (v : OrderItem)
    (h : validateOneItem products storeId item = .ok v) :
    itemPriceCorrect products storeId v := by
  simp only [validateOneItem] at h
  cases hfind : products.find? (productQueryMatch item.productId storeId) with
  | none => simp [hfind] at h
  | some product =>
    simp only [hfind] at h
    cases hinv : product.inventory with
    | some inv =>
      simp only [hinv] at h
      split_ifs at h with hstock
      exact validateOneItemPriced_ok products storeId item product v hfind h
    | none =>
      simp only [hinv] at h
      exact validateOneItemPriced_ok products storeId item product v hfind h

/-- C4: for every validated item list, the order gross is the sum of the
line totals, and every validated line satisfies
line total = unit price × quantity with
unit price = variant price (or base price) + Σ add-on price × add-on
quantity, all frozen from the catalog product looked up for that line. -/
theorem C4_order_pricing (products : List Product) (storeId : String) :
    ∀ (items : List RawItem) (vs : List OrderItem),
      validateOrderItems products storeId items = .ok vs →
      (totalAmountOf vs = (vs.map OrderItem.totalPrice).sum ∧
       ∀ v ∈ vs, itemPriceCorrect products storeId v) := by
  intro items
  induction items with
  | nil =>
    intro vs h
    simp only [validateOrderItems, Except.ok.injEq] at h
    subst h
    exact ⟨totalAmountOf_eq_sum [], by simp⟩
  | cons item rest ih =>
    intro vs h
    simp only [validateOrderItems] at h
    cases h1 : validateOneItem products storeId item with
    | error e => simp [h1] at h
    | ok v =>
      simp only [h1] at h
      cases h2 : validateOrderItems products storeId rest with
      | error e => simp [h2] at h
      | ok vs' =>
        simp only [h2, Except.ok.injEq] at h
        subst h
        refine ⟨totalAmountOf_eq_sum _, ?_⟩
        intro x hx
        rcases List.mem_cons.mp hx with hx | hx
        · subst hx
          exact validateOneItem_ok products storeId item x h1
        · exact (ih vs' h2).2 x hx

/-- Witness for C4 at the spec's worked example: one line of product A,
quantity 2, unit price 60 validates to gross 120, and with the 10% coupon
the discount is 12 and the net 108. -/
theorem C4_order_pricing_witness :
    validateOrderItems [exampleProductA] "s1" [exampleRawA] = .ok [exampleItemA] ∧
    (totalAmountOf [exampleItemA] = ([exampleItemA].map OrderItem.totalPrice).sum ∧
     ∀ v ∈ [exampleItemA], itemPriceCorrect [exampleProductA] "s1" v) ∧
    totalAmountOf [exampleItemA] = 120 ∧
    calculateDiscount exampleCoupon10 (totalAmountOf [exampleItemA]) = 12 ∧
    finalAmountOf (totalAmountOf [exampleItemA])
        (calculateDiscount exampleCoupon10 (totalAmountOf [exampleItemA])) = 108 := by
  have hval : validateOrderItems [exampleProductA] "s1" [exampleRawA] = .ok [exampleItemA] := by
    simp only [validateOrderItems, validateOneItem,
      validateOneItem.validateOneItemPriced, validateAddons,
      exampleProductA, exampleRawA, exampleItemA]
    norm_num [productQueryMatch, List.find?]
  have htot : totalAmountOf [exampleItemA] = 120 := by
    simp [totalAmountOf, exampleItemA]
  refine ⟨hval, C4_order_pricing [exampleProductA] "s1" [exampleRawA] [exampleItemA] hval,
    htot, ?_, ?_⟩ <;>
    rw [htot] <;> norm_num [calculateDiscount, exampleCoupon10, finalAmountOf]
